import Mathlib

/-!
Verification of the MedCLIP experiment-driver scripts.

This file shallowly embeds the data-wrangling logic of three scripts:

* `vision_text_pretrain/run_medclip_cl_pretrain.py` — the contrastive
  pretraining dataset (`ImageTextContrastiveDataset.__getitem__`), the
  batch `collate_fn`, the `ImageTextContrastiveLoss` wrapper, and the
  warm-up step computation;
* `eval_zeroshot_classification.py` — the dataname dispatch, the
  class-prompt assertions, and the multi-run metric aggregation;
* `run_linear_probe.py` — the dataname dispatch and the parameter
  freezing loop.

External effects (file IO, tensors, the tokenizer, the model forward
pass) are modelled abstractly: images are opaque values, the tokenizer
is an abstract per-report encoder followed by padding, and the model is
an abstract function.  Pandas dataframes become lists of rows; pandas
`sample()` becomes selection of an arbitrary index into the candidate
list (erroring on an empty list, as pandas does).
-/

/-! ## The contrastive-pretraining dataset

`ImageTextContrastiveDataset._labels_` is a list of 14 column names;
column 0 is `'No Finding'` and columns 1–13 are the pathology labels.
A sentence-database row carries its report text and its 14 label
values; a data row carries its image path, its (possibly missing)
report, and its 14 label values.  Labels are CheXpert-style values in
\{-1, 0, 1\} (after `fillna(0)`), embedded as integers.
-/

/-- The 14 structured label columns of `ImageTextContrastiveDataset._labels_`,
in source order: column 0 is `No Finding`. -/
def labelColumns : List String :=
  ["No Finding", "Enlarged Cardiomediastinum", "Cardiomegaly", "Lung Lesion",
   "Lung Opacity", "Edema", "Consolidation", "Pneumonia", "Atelectasis",
   "Pneumothorax", "Pleural Effusion", "Pleural Other", "Fracture",
   "Support Devices"]

/-- A row of the sentence-label database `iuxray-sentence-label.csv`:
the `Reports` text column and the 14 label values in `labelColumns` order. -/
structure SentenceRow where
  Reports : String
  labels : List Int
  deriving Repr, DecidableEq

/-- A row of the concatenated metadata dataframe `self.df`: image path,
report (`none` models a NaN report field) and the 14 label values in
`labelColumns` order. -/
structure DataRow where
  imgpath : String
  report : Option String
  labels : List Int
  deriving Repr, DecidableEq

/-- The elementwise clamp performed by `bool_sent_label[bool_sent_label < 0] = 0`. -/
def clampNeg (x : Int) : Int := if x < 0 then 0 else x

/-- The row `bool_sent_label = self.sentence_label[self._labels_] * row[self._labels_]`
followed by zeroing the negative entries, for one sentence row. -/
def boolSentLabel (sentLabels rowLabels : List Int) : List Int :=
  (List.zipWith (· * ·) sentLabels rowLabels).map clampNeg

/-- The filter `self.sentence_label[self.sentence_label['No Finding'] > 0]`:
sentence rows whose `No Finding` label (column 0) is positive. -/
def noFindingSents (db : List SentenceRow) : List SentenceRow :=
  db.filter (fun s => 0 < s.labels.getD 0 0)

/-- The filter `sents = self.sentence_label.loc[~(bool_sent_label.iloc[:,1:] == 0).all(1)]`:
sentence rows whose clamped label product is nonzero on some column
other than column 0 (`No Finding`). -/
def promptSents (db : List SentenceRow) (rowLabels : List Int) : List SentenceRow :=
  db.filter (fun s => !(((boolSentLabel s.labels rowLabels).drop 1).all (· == 0)))

/-- The fallback filter `self.sentence_label[~(bool_sent_label == 0).all(1)]`:
sentence rows whose clamped label product is nonzero on some of the 14 columns. -/
def anyMatchSents (db : List SentenceRow) (rowLabels : List Int) : List SentenceRow :=
  db.filter (fun s => !((boolSentLabel s.labels rowLabels).all (· == 0)))

/-- The candidate set from which `__getitem__` samples its appended sentence:
the `No Finding` sentences when the row has no label, otherwise the
pathology-matching sentences, falling back to any-column matches. -/
def getitemCandidates (db : List SentenceRow) (rowLabels : List Int) :
    List SentenceRow :=
  if rowLabels.all (· == 0) then
    noFindingSents db
  else
    let sents := promptSents db rowLabels
    if sents.length = 0 then anyMatchSents db rowLabels else sents

/-- Pandas `DataFrame.sample()` drawing one row: selection of an arbitrary
index (supplied as `choice`, reduced modulo the length) from a nonempty
frame, and a `ValueError` on an empty frame. -/
def sampleFrame (frame : List SentenceRow) (choice : Nat) :
    Except String SentenceRow :=
  if h : frame.length = 0 then
    .error "ValueError: a must be greater than 0 unless no samples are taken"
  else
    .ok (frame.get ⟨choice % frame.length, Nat.mod_lt _ (Nat.pos_of_ne_zero h)⟩)

/-- The body of `ImageTextContrastiveDataset.__getitem__`: the image is
modelled by its path; the report defaults to the empty string when
missing; a sentence sampled from the candidate set is appended with a
space separator. -/
def getitem (db : List SentenceRow) (row : DataRow) (choice : Nat) :
    Except String (String × String) := do
  let report := row.report.getD ""
  let sampled ← sampleFrame (getitemCandidates db row.labels) choice
  return (row.imgpath, report ++ " " ++ sampled.Reports)

/-! ### Characterising the code's filters by sign conditions

The comment in the source explains the trick:
`x * 0 = 0, 1 * -1 = -1, 1 * 1 = 1, -1 * -1 = 1`; after zeroing
negatives, a nonzero entry of `bool_sent_label` is exactly a positive
product, i.e. a sign-matching nonzero label.
-/

theorem clampNeg_ne_zero (x : Int) : clampNeg x ≠ 0 ↔ 0 < x := by
  unfold clampNeg
  split
  · simp only [ne_eq, not_true_eq_false, false_iff, not_lt]
    omega
  · constructor
    · intro h
      omega
    · intro h
      omega

/-- A clamped product list has a nonzero entry iff some positionwise
product is positive. -/
theorem boolSentLabel_any_pos (xs ys : List Int) :
    (!((boolSentLabel xs ys).all (· == 0))) = true ↔
      ∃ j, 0 < xs.getD j 0 * ys.getD j 0 := by
  induction xs generalizing ys with
  | nil =>
    simp [boolSentLabel]
  | cons x xs ih =>
    cases ys with
    | nil =>
      simp [boolSentLabel]
    | cons y ys =>
      simp only [boolSentLabel, List.zipWith_cons_cons, List.map_cons,
        List.all_cons, Bool.not_and]
      constructor
      · intro h
        rcases Bool.or_eq_true_iff.mp h with h1 | h1
        · refine ⟨0, ?_⟩
          simp only [List.getD_cons_zero]
          have := (clampNeg_ne_zero (x * y)).mp (by simpa using h1)
          exact this
        · obtain ⟨j, hj⟩ := (ih ys).mp (by simpa [boolSentLabel] using h1)
          exact ⟨j + 1, by simpa using hj⟩
      · rintro ⟨j, hj⟩
        cases j with
        | zero =>
          apply Bool.or_eq_true_iff.mpr
          left
          simp only [List.getD_cons_zero] at hj
          simpa using (clampNeg_ne_zero (x * y)).mpr hj
        | succ j =>
          apply Bool.or_eq_true_iff.mpr
          right
          simp only [List.getD_cons_succ] at hj
          simpa [boolSentLabel] using (ih ys).mpr ⟨j, hj⟩

/-- Dropping the head of a clamped product list of two nonempty lists
gives the clamped product list of the tails. -/
theorem boolSentLabel_drop_one (x y : Int) (xs ys : List Int) :
    (boolSentLabel (x :: xs) (y :: ys)).drop 1 = boolSentLabel xs ys := by
  simp [boolSentLabel]

/-- A clamped product list has a nonzero entry beyond column 0 iff some
positionwise product at a column `j + 1` is positive. -/
theorem boolSentLabel_tail_any_pos (xs ys : List Int)
    (hx : xs ≠ []) (hy : ys ≠ []) :
    (!(((boolSentLabel xs ys).drop 1).all (· == 0))) = true ↔
      ∃ j, 0 < xs.getD (j + 1) 0 * ys.getD (j + 1) 0 := by
  cases xs with
  | nil => exact absurd rfl hx
  | cons x xs =>
    cases ys with
    | nil => exact absurd rfl hy
    | cons y ys =>
      rw [boolSentLabel_drop_one]
      simpa using boolSentLabel_any_pos xs ys

/-- The set of sentences the specification describes for the pathology
branch: a positive product on at least one of the 13 labels other than
`No Finding` (columns 1–13). -/
def pathologyMatchSents (db : List SentenceRow) (rowLabels : List Int) :
    List SentenceRow :=
  db.filter (fun s =>
    (List.range 13).any (fun j =>
      decide (0 < s.labels.getD (j + 1) 0 * rowLabels.getD (j + 1) 0)))

/-- The set of sentences the specification describes for the fallback
branch: a positive product on at least one of the 14 labels
(`No Finding` included). -/
def signMatchSents (db : List SentenceRow) (rowLabels : List Int) :
    List SentenceRow :=
  db.filter (fun s =>
    (List.range 14).any (fun j =>
      decide (0 < s.labels.getD j 0 * rowLabels.getD j 0)))

theorem range_any_iff (n : Nat) (p : Nat → Bool) :
    (List.range n).any p = true ↔ ∃ j < n, p j = true := by
  rw [List.any_eq_true]
  constructor
  · rintro ⟨j, hj, hp⟩
    exact ⟨j, List.mem_range.mp hj, hp⟩
  · rintro ⟨j, hj, hp⟩
    exact ⟨j, List.mem_range.mpr hj, hp⟩

/-- For length-14 label vectors a positive product can only occur at a
column index below 14. -/
theorem pos_prod_index_lt (xs ys : List Int) (hx : xs.length = 14)
    (j : Nat) (h : 0 < xs.getD j 0 * ys.getD j 0) : j < 14 := by
  by_contra hge
  rw [List.getD_eq_default] at h
  · simp at h
  · omega

/-- The code's pathology filter (`bool_sent_label.iloc[:,1:]` nonzero
somewhere, after clamping) coincides with the spec's positive-product
set over columns 1–13, given 14-column label vectors. -/
theorem promptSents_eq_pathologyMatchSents (db : List SentenceRow)
    (rowLabels : List Int) (hr : rowLabels.length = 14)
    (hdb : ∀ s ∈ db, s.labels.length = 14) :
    promptSents db rowLabels = pathologyMatchSents db rowLabels := by
  unfold promptSents pathologyMatchSents
  apply List.filter_congr
  intro s hs
  have hs14 := hdb s hs
  rw [Bool.eq_iff_iff]
  rw [boolSentLabel_tail_any_pos s.labels rowLabels
    (by intro h; rw [h] at hs14; simp at hs14)
    (by intro h; rw [h] at hr; simp at hr)]
  rw [range_any_iff]
  constructor
  · rintro ⟨j, hj⟩
    have hlt : j + 1 < 14 := pos_prod_index_lt s.labels rowLabels hs14 (j + 1) hj
    exact ⟨j, by omega, decide_eq_true hj⟩
  · rintro ⟨j, _, hp⟩
    exact ⟨j, of_decide_eq_true hp⟩

/-- The code's fallback filter (`bool_sent_label` nonzero somewhere,
after clamping) coincides with the spec's positive-product set over all
14 columns, given 14-column label vectors. -/
theorem anyMatchSents_eq_signMatchSents (db : List SentenceRow)
    (rowLabels : List Int) (hdb : ∀ s ∈ db, s.labels.length = 14) :
    anyMatchSents db rowLabels = signMatchSents db rowLabels := by
  unfold anyMatchSents signMatchSents
  apply List.filter_congr
  intro s hs
  have hs14 := hdb s hs
  rw [Bool.eq_iff_iff]
  rw [boolSentLabel_any_pos s.labels rowLabels, range_any_iff]
  constructor
  · rintro ⟨j, hj⟩
    exact ⟨j, pos_prod_index_lt s.labels rowLabels hs14 j hj, decide_eq_true hj⟩
  · rintro ⟨j, _, hp⟩
    exact ⟨j, of_decide_eq_true hp⟩

theorem sampleFrame_ok (frame : List SentenceRow) (choice : Nat)
    (h : frame ≠ []) : ∃ s ∈ frame, sampleFrame frame choice = .ok s := by
  unfold sampleFrame
  have hlen : frame.length ≠ 0 := fun h0 => h (List.length_eq_zero.mp h0)
  rw [dif_neg hlen]
  exact ⟨_, List.get_mem _ _ _, rfl⟩

theorem getitem_of_sample_ok (db : List SentenceRow) (row : DataRow)
    (choice : Nat) (s : SentenceRow)
    (h : sampleFrame (getitemCandidates db row.labels) choice = .ok s) :
    getitem db row choice =
      .ok (row.imgpath, row.report.getD "" ++ " " ++ s.Reports) := by
  unfold getitem
  rw [h]
  rfl

theorem getitem_of_sample_error (db : List SentenceRow) (row : DataRow)
    (choice : Nat) (e : String)
    (h : sampleFrame (getitemCandidates db row.labels) choice = .error e) :
    getitem db row choice = .error e := by
  unfold getitem
  rw [h]
  rfl

theorem sampleFrame_nil (choice : Nat) :
    sampleFrame [] choice =
      .error "ValueError: a must be greater than 0 unless no samples are taken" := rfl

/-- A sentence matching on a pathology column (1–13) also matches on
some of the 14 columns. -/
theorem tail_match_imp_any_match (ls rl : List Int)
    (h : (!(((boolSentLabel ls rl).drop 1).all (· == 0))) = true) :
    (!((boolSentLabel ls rl).all (· == 0))) = true := by
  cases hall : (boolSentLabel ls rl).all (· == 0) with
  | false => simp
  | true =>
    exfalso
    rw [Bool.not_eq_true'] at h
    have hdrop : ((boolSentLabel ls rl).drop 1).all (· == 0) = true := by
      rw [List.all_eq_true] at hall ⊢
      intro x hx
      exact hall x (List.mem_of_mem_drop hx)
    rw [hdrop] at h
    simp at h

/-- Claim C1: for a row with some nonzero structured label,
`__getitem__` appends to the row's report a sentence drawn exactly from
the set with a positive label product on one of the 13 pathology
columns when that set is nonempty, and otherwise from the set with a
positive product on any of the 14 columns. -/
theorem getitem_pathology_prompt_sampling
    (db : List SentenceRow) (row : DataRow) (choice : Nat)
    (hr : row.labels.length = 14)
    (hdb : ∀ s ∈ db, s.labels.length = 14)
    (hnz : row.labels.all (· == 0) = false) :
    (pathologyMatchSents db row.labels ≠ [] →
      ∃ s ∈ pathologyMatchSents db row.labels,
        getitem db row choice =
          .ok (row.imgpath, row.report.getD "" ++ " " ++ s.Reports)) ∧
    (pathologyMatchSents db row.labels = [] →
      signMatchSents db row.labels ≠ [] →
      ∃ s ∈ signMatchSents db row.labels,
        getitem db row choice =
          .ok (row.imgpath, row.report.getD "" ++ " " ++ s.Reports)) := by
  have hps := promptSents_eq_pathologyMatchSents db row.labels hr hdb
  have has := anyMatchSents_eq_signMatchSents db row.labels hdb
  constructor
  · intro hne
    have hc : getitemCandidates db row.labels = pathologyMatchSents db row.labels := by
      unfold getitemCandidates
      rw [hnz]
      simp only [Bool.false_eq_true, if_false, hps]
      rw [if_neg]
      intro h0
      exact hne (List.length_eq_zero.mp h0)
    obtain ⟨s, hs, hsamp⟩ := sampleFrame_ok _ choice (hc ▸ hne)
    exact ⟨s, hc ▸ hs, getitem_of_sample_ok db row choice s hsamp⟩
  · intro hS hT
    have hc : getitemCandidates db row.labels = signMatchSents db row.labels := by
      unfold getitemCandidates
      rw [hnz]
      simp only [Bool.false_eq_true, if_false, hps, hS]
      simpa using has
    obtain ⟨s, hs, hsamp⟩ := sampleFrame_ok _ choice (hc ▸ hT)
    exact ⟨s, hc ▸ hs, getitem_of_sample_ok db row choice s hsamp⟩

/-- Claim C2: for a row whose 14 structured labels are all zero,
`__getitem__` appends to the row's report (the empty string when the
report field is missing) a sentence drawn only from database rows whose
`No Finding` label is positive. -/
theorem getitem_no_label_no_finding_sampling
    (db : List SentenceRow) (row : DataRow) (choice : Nat)
    (hz : row.labels.all (· == 0) = true)
    (hne : noFindingSents db ≠ []) :
    ∃ s ∈ db, 0 < s.labels.getD 0 0 ∧
      getitem db row choice =
        .ok (row.imgpath, row.report.getD "" ++ " " ++ s.Reports) := by
  have hc : getitemCandidates db row.labels = noFindingSents db := by
    unfold getitemCandidates
    rw [hz]
    simp
  obtain ⟨s, hs, hsamp⟩ := sampleFrame_ok _ choice (hc ▸ hne)
  rw [hc] at hs
  rw [noFindingSents, List.mem_filter] at hs
  exact ⟨s, hs.1, of_decide_eq_true hs.2,
    getitem_of_sample_ok db row choice s hsamp⟩

/-- Claim C10: for a row with some nonzero structured label,
`__getitem__` returns an (image, report) pair exactly when some
sentence in the database has a sign-matching nonzero label (positive
product) on some of the 14 columns; when no such sentence exists the
fallback sample() runs on an empty frame and the call raises a
`ValueError` instead of returning. -/
theorem getitem_total_iff_sign_match
    (db : List SentenceRow) (row : DataRow) (choice : Nat)
    (hnz : row.labels.all (· == 0) = false) :
    ((∃ s ∈ db, ∃ j, 0 < s.labels.getD j 0 * row.labels.getD j 0) →
      ∃ out, getitem db row choice = .ok out) ∧
    ((¬ ∃ s ∈ db, ∃ j, 0 < s.labels.getD j 0 * row.labels.getD j 0) →
      getitem db row choice =
        .error "ValueError: a must be greater than 0 unless no samples are taken") := by
  constructor
  · rintro ⟨s, hsdb, j, hj⟩
    have hany : (!((boolSentLabel s.labels row.labels).all (· == 0))) = true :=
      (boolSentLabel_any_pos s.labels row.labels).mpr ⟨j, hj⟩
    have hmem : s ∈ anyMatchSents db row.labels :=
      List.mem_filter.mpr ⟨hsdb, hany⟩
    have hcne : getitemCandidates db row.labels ≠ [] := by
      unfold getitemCandidates
      rw [hnz]
      simp only [Bool.false_eq_true, if_false]
      by_cases hp : (promptSents db row.labels).length = 0
      · rw [if_pos hp]
        exact List.ne_nil_of_mem hmem
      · rw [if_neg hp]
        intro h0
        exact hp (by rw [h0]; rfl)
    obtain ⟨s2, hs2, hsamp⟩ := sampleFrame_ok _ choice hcne
    exact ⟨_, getitem_of_sample_ok db row choice _ hsamp⟩
  · intro hno
    have hanil : anyMatchSents db row.labels = [] := by
      rw [anyMatchSents, List.filter_eq_nil_iff]
      intro s hs
      intro hpred
      exact hno ⟨s, hs, (boolSentLabel_any_pos s.labels row.labels).mp hpred⟩
    have hpnil : promptSents db row.labels = [] := by
      rw [promptSents, List.filter_eq_nil_iff]
      intro s hs hpred
      have := tail_match_imp_any_match s.labels row.labels hpred
      have : s ∈ anyMatchSents db row.labels := List.mem_filter.mpr ⟨hs, this⟩
      rw [hanil] at this
      simp at this
    have hc : getitemCandidates db row.labels = [] := by
      unfold getitemCandidates
      rw [hnz]
      simp only [Bool.false_eq_true, if_false, hpnil, hanil]
      simp
    apply getitem_of_sample_error
    rw [hc]
    exact sampleFrame_nil choice

theorem getitem_pathology_prompt_sampling_witness :
    ∃ s ∈ pathologyMatchSents
        [⟨"heart size is enlarged.", [0, 0, 1, 0, 0, 0, 0, 0, 0, 0, 0, 0, 0, 0]⟩]
        [0, 0, 1, 0, 0, 0, 0, 0, 0, 0, 0, 0, 0, 0],
      getitem
        [⟨"heart size is enlarged.", [0, 0, 1, 0, 0, 0, 0, 0, 0, 0, 0, 0, 0, 0]⟩]
        ⟨"img1.png", some "chest pa and lateral.",
          [0, 0, 1, 0, 0, 0, 0, 0, 0, 0, 0, 0, 0, 0]⟩ 0 =
        .ok ("img1.png", "chest pa and lateral." ++ " " ++ s.Reports) :=
  (getitem_pathology_prompt_sampling
    [⟨"heart size is enlarged.", [0, 0, 1, 0, 0, 0, 0, 0, 0, 0, 0, 0, 0, 0]⟩]
    ⟨"img1.png", some "chest pa and lateral.",
      [0, 0, 1, 0, 0, 0, 0, 0, 0, 0, 0, 0, 0, 0]⟩ 0
    (by decide) (by decide) (by decide)).1 (by decide)

theorem getitem_no_label_no_finding_sampling_witness :
    ∃ s ∈ [(⟨"no acute cardiopulmonary abnormality.",
        [1, 0, 0, 0, 0, 0, 0, 0, 0, 0, 0, 0, 0, 0]⟩ : SentenceRow)],
      0 < s.labels.getD 0 0 ∧
      getitem
        [⟨"no acute cardiopulmonary abnormality.",
          [1, 0, 0, 0, 0, 0, 0, 0, 0, 0, 0, 0, 0, 0]⟩]
        ⟨"img0.png", none, [0, 0, 0, 0, 0, 0, 0, 0, 0, 0, 0, 0, 0, 0]⟩ 0 =
        .ok ("img0.png", "" ++ " " ++ s.Reports) :=
  getitem_no_label_no_finding_sampling
    [⟨"no acute cardiopulmonary abnormality.",
      [1, 0, 0, 0, 0, 0, 0, 0, 0, 0, 0, 0, 0, 0]⟩]
    ⟨"img0.png", none, [0, 0, 0, 0, 0, 0, 0, 0, 0, 0, 0, 0, 0, 0]⟩ 0
    (by decide) (by decide)

theorem getitem_total_iff_sign_match_witness :
    getitem []
      ⟨"img2.png", some "two views of the chest.",
        [0, 1, 0, 0, 0, 0, 0, 0, 0, 0, 0, 0, 0, 0]⟩ 0 =
      .error "ValueError: a must be greater than 0 unless no samples are taken" :=
  (getitem_total_iff_sign_match []
    ⟨"img2.png", some "two views of the chest.",
      [0, 1, 0, 0, 0, 0, 0, 0, 0, 0, 0, 0, 0, 0]⟩ 0 (by decide)).2
    (by rintro ⟨s, hs, _⟩; exact (List.not_mem_nil s) hs)

/-! ## The pretraining batch collation

`collate_fn` loops over the batch accumulating image tensors and
reports in batch order, tokenizes the report list in one call
(`truncation=True, padding=True`), and returns a dictionary with keys
`pixel_values`, `input_ids`, `attention_mask`.  The tokenizer is
external: it is modelled by an abstract per-report encoder (truncation
folded in) followed by right-padding every row to the longest row, the
attention mask being 1 on real tokens and 0 on padding.
-/

/-- A value of the `inputs` dictionary built by `collate_fn`: either the
stacked image tensors (`pixel_values`, modelled as the list of per-item
image tensors in row order) or a token matrix. -/
inductive CollateVal (Img : Type) where
  | imgs : List Img → CollateVal Img
  | mat : List (List Nat) → CollateVal Img
  deriving DecidableEq

/-- Right-padding of one token row to length `L` with token `padTok`. -/
def padTo (padTok L : Nat) (xs : List Nat) : List Nat :=
  xs ++ List.replicate (L - xs.length) padTok

/-- Length of the longest encoded report in the batch, the padding
target of the tokenizer's `padding=True`. -/
def tokenMaxLen (encode : String → List Nat) (reports : List String) : Nat :=
  (reports.map encode).foldr (fun e m => max e.length m) 0

/-- The batched tokenizer call
`tokenizer(report_list, truncation=True, padding=True, return_tensors='pt')`:
per-report encoding, with `input_ids` rows padded by `padTok` and
`attention_mask` rows 1 on real tokens, 0 on padding. -/
def batchTokenize (encode : String → List Nat) (padTok : Nat)
    (reports : List String) : List (List Nat) × List (List Nat) :=
  let encs := reports.map encode
  let L := tokenMaxLen encode reports
  (encs.map (padTo padTok L),
   encs.map (fun e => padTo 0 L (List.replicate e.length 1)))

/-- The pretraining `collate_fn`: the `for data in batch` loop appends
`data[0]` to `pixel_values` and `data[1]` to the report list in batch
order, the report list is tokenized, and `input_ids` and
`attention_mask` are stored alongside the concatenated images. -/
def collate_fn {Img : Type} (encode : String → List Nat) (padTok : Nat)
    (batch : List (Img × String)) : List (String × CollateVal Img) :=
  let pixel := batch.foldl (fun acc d => acc ++ [d.1]) []
  let reportList := batch.foldl (fun acc d => acc ++ [d.2]) []
  let textInputs := batchTokenize encode padTok reportList
  [("pixel_values", .imgs pixel),
   ("input_ids", .mat textInputs.1),
   ("attention_mask", .mat textInputs.2)]

theorem foldl_append_singleton {α β : Type} (f : α → β) (l : List α)
    (acc : List β) :
    l.foldl (fun a d => a ++ [f d]) acc = acc ++ l.map f := by
  induction l generalizing acc with
  | nil => simp
  | cons x xs ih => simp [ih]

/-- Claim C6: `collate_fn` preserves the image-report pairing — row `i`
of `pixel_values` is batch item `i`'s image, row `i` of
`input_ids`/`attention_mask` is the (padded) tokenization of batch
item `i`'s report — and the returned mapping has exactly the keys
`pixel_values`, `input_ids`, `attention_mask`. -/
theorem collate_fn_pairing {Img : Type} (encode : String → List Nat)
    (padTok : Nat) (batch : List (Img × String)) (i : Nat)
    (hi : i < batch.length) :
    (collate_fn encode padTok batch).map Prod.fst =
        ["pixel_values", "input_ids", "attention_mask"] ∧
    (collate_fn encode padTok batch).lookup "pixel_values" =
        some (.imgs (batch.map Prod.fst)) ∧
    (batch.map Prod.fst).get? i = some (batch.get ⟨i, hi⟩).1 ∧
    (∃ ids mask,
      (collate_fn encode padTok batch).lookup "input_ids" = some (.mat ids) ∧
      (collate_fn encode padTok batch).lookup "attention_mask" =
        some (.mat mask) ∧
      ids.get? i = some (padTo padTok
        (tokenMaxLen encode (batch.map Prod.snd))
        (encode (batch.get ⟨i, hi⟩).2)) ∧
      mask.get? i = some (padTo 0
        (tokenMaxLen encode (batch.map Prod.snd))
        (List.replicate (encode (batch.get ⟨i, hi⟩).2).length 1))) := by
  have hpix : batch.foldl (fun a (d : Img × String) => a ++ [d.1]) [] =
      batch.map Prod.fst := foldl_append_singleton Prod.fst batch []
  have hrep : batch.foldl (fun a (d : Img × String) => a ++ [d.2]) [] =
      batch.map Prod.snd := foldl_append_singleton Prod.snd batch []
  refine ⟨rfl, ?_, ?_, ?_⟩
  · simp [collate_fn, hpix, List.lookup]
  · rw [List.get?_map, List.get?_eq_get hi]
    rfl
  · refine ⟨((batch.map Prod.snd).map encode).map
      (padTo padTok (tokenMaxLen encode (batch.map Prod.snd))),
      ((batch.map Prod.snd).map encode).map
        (fun e => padTo 0 (tokenMaxLen encode (batch.map Prod.snd))
          (List.replicate e.length 1)), ?_, ?_, ?_, ?_⟩
    · simp [collate_fn, hrep, batchTokenize, List.lookup]
    · simp [collate_fn, hrep, batchTokenize, List.lookup]
    · rw [List.get?_map, List.get?_map, List.get?_map, List.get?_eq_get hi]
      rfl
    · rw [List.get?_map, List.get?_map, List.get?_map, List.get?_eq_get hi]
      rfl

theorem collate_fn_pairing_witness :
    ((collate_fn (fun r => List.replicate r.length 5) 0
        [((1 : Nat), "ab"), ((2 : Nat), "c")]).map Prod.fst =
      ["pixel_values", "input_ids", "attention_mask"]) ∧
    (collate_fn (fun r => List.replicate r.length 5) 0
        [((1 : Nat), "ab"), ((2 : Nat), "c")]).lookup "pixel_values" =
      some (.imgs [1, 2]) ∧
    ([(1 : Nat), 2].get? 1 = some 2) ∧
    (∃ ids mask,
      (collate_fn (fun r => List.replicate r.length 5) 0
          [((1 : Nat), "ab"), ((2 : Nat), "c")]).lookup "input_ids" =
        some (.mat ids) ∧
      (collate_fn (fun r => List.replicate r.length 5) 0
          [((1 : Nat), "ab"), ((2 : Nat), "c")]).lookup "attention_mask" =
        some (.mat mask) ∧
      ids.get? 1 = some (padTo 0 2 [5]) ∧
      mask.get? 1 = some (padTo 0 2 [1])) :=
  collate_fn_pairing (fun r => List.replicate r.length 5) 0
    [((1 : Nat), "ab"), ((2 : Nat), "c")] 1 (by decide)

/-! ## The contrastive loss wrapper -/

/-- The body of `ImageTextContrastiveLoss.forward`: the wrapped model is
called on the same `input_ids`, `pixel_values` and `attention_mask` with
`return_loss=True`, and only the `loss_value` entry of its output
dictionary is repackaged (`outputs['loss_value']` is a `KeyError` when
absent). -/
def contrastiveLossForward {Ids Pix Mask Val : Type}
    (model : Ids → Pix → Mask → Bool → List (String × Val))
    (input_ids : Ids) (pixel_values : Pix) (attention_mask : Mask) :
    Except String (List (String × Val)) :=
  let outputs := model input_ids pixel_values attention_mask true
  match outputs.lookup "loss_value" with
  | none => .error "KeyError: loss_value"
  | some v => .ok [("loss_value", v)]

/-- Claim C7: `ImageTextContrastiveLoss.forward` computes no loss
arithmetic of its own — it returns a dictionary whose single key is
`loss_value` and whose value is exactly the `loss_value` entry of the
wrapped model's output for `return_loss=True` on the same inputs. -/
theorem contrastiveLossForward_delegates {Ids Pix Mask Val : Type}
    (model : Ids → Pix → Mask → Bool → List (String × Val))
    (ids : Ids) (pix : Pix) (mask : Mask) (v : Val)
    (h : (model ids pix mask true).lookup "loss_value" = some v) :
    contrastiveLossForward model ids pix mask = .ok [("loss_value", v)] := by
  unfold contrastiveLossForward
  simp only []
  rw [h]

theorem contrastiveLossForward_delegates_witness :
    contrastiveLossForward
      (fun (_ : Nat) (_ : Nat) (_ : Nat) (rl : Bool) =>
        if rl then [("loss_value", (7 : Nat)), ("logits", 3)] else [])
      0 0 0 = .ok [("loss_value", 7)] :=
  contrastiveLossForward_delegates
    (fun _ _ _ rl => if rl then [("loss_value", 7), ("logits", 3)] else [])
    0 0 0 7 rfl

/-! ## The linear-probe parameter freezing -/

/-- A named model parameter as seen by `clf.named_parameters()`: its
dotted name, its (abstracted, rational) value, and its gradient flag. -/
structure TrainParam where
  name : String
  value : Rat
  requires_grad : Bool
  deriving Repr, DecidableEq

/-- The freezing loop of `run_linear_probe.py`:
`for name, param in clf.named_parameters(): if name not in
['fc.weight', 'fc.bias']: param.requires_grad = False`. -/
def freezeBackbone (params : List TrainParam) : List TrainParam :=
  params.map (fun p =>
    if p.name ∈ ["fc.weight", "fc.bias"] then p
    else { p with requires_grad := false })

/-- Modelled from the spec: `medclip.trainer.Trainer` is not under
`src/`.  Per the spec the linear probe fine-tunes "a linear
classification head on frozen vision features", i.e. an optimizer step
updates only parameters whose `requires_grad` flag is set; `upd` is the
(arbitrary) update the step applies to a trainable parameter. -/
def trainStep (upd : String → Rat → Rat) (params : List TrainParam) :
    List TrainParam :=
  params.map (fun p =>
    if p.requires_grad then { p with value := upd p.name p.value } else p)

/-- A training run: a sequence of optimizer steps applied in order. -/
def trainRun (upds : List (String → Rat → Rat)) (params : List TrainParam) :
    List TrainParam :=
  upds.foldl (fun ps u => trainStep u ps) params

theorem trainStep_get? (upd : String → Rat → Rat) (ps : List TrainParam)
    (i : Nat) :
    (trainStep upd ps).get? i = (ps.get? i).map (fun p =>
      if p.requires_grad then { p with value := upd p.name p.value } else p) := by
  simp [trainStep]

theorem trainRun_frozen (upds : List (String → Rat → Rat))
    (ps : List TrainParam) (i : Nat) (p : TrainParam)
    (h : ps.get? i = some p) (hf : p.requires_grad = false) :
    (trainRun upds ps).get? i = some p := by
  induction upds generalizing ps with
  | nil => exact h
  | cons u us ih =>
    have hstep : (trainStep u ps).get? i = some p := by
      rw [trainStep_get?, h]
      simp [hf]
    exact ih (trainStep u ps) hstep

/-- Claim C3: after the freezing loop, every parameter whose name is not
`fc.weight` or `fc.bias` has `requires_grad = false`, and (with the
trainer modelled as updating only trainable parameters) its value is
unchanged by any sequence of training steps. -/
theorem linear_probe_freezes_backbone (params : List TrainParam)
    (upds : List (String → Rat → Rat)) (i : Nat) (p : TrainParam)
    (hp : params.get? i = some p)
    (hname : p.name ∉ ["fc.weight", "fc.bias"]) :
    (freezeBackbone params).get? i = some { p with requires_grad := false } ∧
    (trainRun upds (freezeBackbone params)).get? i =
      some { p with requires_grad := false } := by
  have hfz : (freezeBackbone params).get? i =
      some { p with requires_grad := false } := by
    unfold freezeBackbone
    rw [List.get?_map, hp]
    simp only [Option.map_some']
    rw [if_neg hname]
  exact ⟨hfz, trainRun_frozen upds _ i _ hfz rfl⟩

theorem linear_probe_freezes_backbone_witness :
    (freezeBackbone
        [⟨"vision_model.model.conv1.weight", 1, true⟩, ⟨"fc.weight", 2, true⟩]).get? 0 =
      some ⟨"vision_model.model.conv1.weight", 1, false⟩ ∧
    (trainRun [fun _ v => v + 1]
        (freezeBackbone
          [⟨"vision_model.model.conv1.weight", 1, true⟩, ⟨"fc.weight", 2, true⟩])).get? 0 =
      some ⟨"vision_model.model.conv1.weight", 1, false⟩ :=
  linear_probe_freezes_backbone
    [⟨"vision_model.model.conv1.weight", 1, true⟩, ⟨"fc.weight", 2, true⟩]
    [fun _ v => v + 1] 0 ⟨"vision_model.model.conv1.weight", 1, true⟩
    rfl (by decide)

/-! ## The pretraining warm-up step count -/

/-- `train_config['batch_size']` of the pretraining script. -/
def pretrainBatchSize : Nat := 128

/-- `train_config['num_epochs']` of the pretraining script. -/
def pretrainNumEpochs : Nat := 3

/-- `train_config['warmup']` of the pretraining script (0.01). -/
def pretrainWarmupRatio : Rat := 1 / 100

/-- `warmup_steps = math.ceil(len(traindata) * train_config['num_epochs']
* train_config['warmup'])` with exact rational arithmetic in place of
the script's floats. -/
def warmup_steps (datasetLen : Nat) : Nat :=
  Nat.ceil (((datasetLen : Rat) * (pretrainNumEpochs : Rat)) * pretrainWarmupRatio)

/-- Optimizer steps per epoch of a `DataLoader` with `batch_size=128`
and no `drop_last`: one step per batch, `ceil(len / 128)`. -/
def stepsPerEpoch (datasetLen : Nat) : Nat :=
  Nat.ceil ((datasetLen : Rat) / (pretrainBatchSize : Rat))

/-- The quantity the configuration comment ("the first 1% of training
steps are used for warm-up") describes: 1% of the optimizer steps of
the whole 3-epoch training. -/
def commentWarmupSteps (datasetLen : Nat) : Nat :=
  Nat.ceil (((stepsPerEpoch datasetLen : Rat) * (pretrainNumEpochs : Rat)) *
    pretrainWarmupRatio)

/-- Claim C9: the warm-up value passed to the trainer is
`ceil(len * 3 * 0.01)` — 1% of training examples over 3 epochs — which
is bounded by, and (on batch-aligned dataset sizes) exactly equal to,
`batch_size` (128) times the 1%-of-optimizer-steps value the
configuration comment describes. -/
theorem warmup_steps_counts_examples_not_steps (n : Nat) :
    warmup_steps n = Nat.ceil ((3 * n : Rat) / 100) ∧
    warmup_steps n ≤ pretrainBatchSize * commentWarmupSteps n ∧
    (12800 ∣ n → warmup_steps n = pretrainBatchSize * commentWarmupSteps n) := by
  refine ⟨?_, ?_, ?_⟩
  · unfold warmup_steps pretrainNumEpochs pretrainWarmupRatio
    congr 1
    push_cast
    ring
  · have hle : (n : Rat) ≤ (pretrainBatchSize : Rat) * (stepsPerEpoch n : Rat) := by
      have h1 : (n : Rat) / (pretrainBatchSize : Rat) ≤ (stepsPerEpoch n : Rat) :=
        Nat.le_ceil _
      have hb : (0 : Rat) < (pretrainBatchSize : Rat) := by
        unfold pretrainBatchSize
        norm_num
      rw [div_le_iff hb] at h1
      linarith
    unfold warmup_steps
    rw [Nat.ceil_le]
    have h2 : ((stepsPerEpoch n : Rat) * (pretrainNumEpochs : Rat)) *
        pretrainWarmupRatio ≤ (commentWarmupSteps n : Rat) := Nat.le_ceil _
    unfold pretrainNumEpochs pretrainWarmupRatio at h2 ⊢
    unfold pretrainBatchSize at hle ⊢
    push_cast at h2 hle ⊢
    nlinarith [h2, hle]
  · rintro ⟨k, rfl⟩
    have hw : warmup_steps (12800 * k) = 384 * k := by
      unfold warmup_steps pretrainNumEpochs pretrainWarmupRatio
      rw [show ((12800 * k : Nat) : Rat) * ((3 : Nat) : Rat) * (1 / 100) =
          ((384 * k : Nat) : Rat) by push_cast; ring]
      exact Nat.ceil_natCast _
    have hs : stepsPerEpoch (12800 * k) = 100 * k := by
      unfold stepsPerEpoch pretrainBatchSize
      rw [show ((12800 * k : Nat) : Rat) / ((128 : Nat) : Rat) =
          ((100 * k : Nat) : Rat) by push_cast; ring]
      exact Nat.ceil_natCast _
    have hc : commentWarmupSteps (12800 * k) = 3 * k := by
      unfold commentWarmupSteps pretrainNumEpochs pretrainWarmupRatio
      rw [hs]
      rw [show ((100 * k : Nat) : Rat) * ((3 : Nat) : Rat) * (1 / 100) =
          ((3 * k : Nat) : Rat) by push_cast; ring]
      exact Nat.ceil_natCast _
    rw [hw, hc]
    unfold pretrainBatchSize
    ring

theorem warmup_steps_counts_examples_not_steps_witness :
    warmup_steps 12800 = Nat.ceil ((3 * 12800 : Rat) / 100) ∧
    warmup_steps 12800 ≤ pretrainBatchSize * commentWarmupSteps 12800 ∧
    warmup_steps 12800 = pretrainBatchSize * commentWarmupSteps 12800 :=
  ⟨(warmup_steps_counts_examples_not_steps 12800).1,
   (warmup_steps_counts_examples_not_steps 12800).2.1,
   (warmup_steps_counts_examples_not_steps 12800).2.2 ⟨1, rfl⟩⟩

/-! ## The dataname dispatch of both evaluation scripts

Each script is modelled up to the point where the claims about it are
decided, as the ordered list of artifacts it builds; an unrecognized
`dataname` yields `NotImplementedError` together with the artifacts
built before the raise.
-/

/-- The datanames the zero-shot script's if/elif chain recognizes. -/
def evalRecognizedDatanames : List String :=
  ["chexpert-5x200", "mimic-5x200", "covid-test", "covid-2x200-test",
   "rsna-balanced-test", "rsna-2x200-test"]

/-- The datanames the linear-probe script's if/elif chain recognizes. -/
def probeRecognizedDatanames : List String :=
  ["chexpert-5x200", "mimic-5x200", "covid", "covid-2x200",
   "rsna-balanced", "rsna-2x200"]

/-- The zero-shot script in artifact order: the MedClip checkpoint load
(task-independent, lines 37–49) precedes the task dispatch; the task's
dataset, prompts, collator, dataloader, prompt classifier and evaluator
all follow it. -/
def evalScriptArtifacts (dataname : String) :
    Except (String × List String) (List String) :=
  let built := ["medclip_model"]
  if dataname = "chexpert-5x200" ∨ dataname = "mimic-5x200" then
    .ok (built ++ ["val_data", "cls_prompts", "val_collate_fn",
      "eval_dataloader", "medclip_clf", "evaluator"])
  else if dataname = "covid-test" ∨ dataname = "covid-2x200-test" then
    .ok (built ++ ["val_data", "cls_prompts", "val_collate_fn",
      "eval_dataloader", "medclip_clf", "evaluator"])
  else if dataname = "rsna-balanced-test" ∨ dataname = "rsna-2x200-test" then
    .ok (built ++ ["val_data", "cls_prompts", "val_collate_fn",
      "eval_dataloader", "medclip_clf", "evaluator"])
  else
    .error ("NotImplementedError", built)

/-- The linear-probe script in artifact order: the task dispatch (lines
51–80) comes first; the classifier, datasets and dataloaders are all
built after it. -/
def probeScriptArtifacts (dataname : String) :
    Except (String × List String) (List String) :=
  if dataname = "chexpert-5x200" ∨ dataname = "mimic-5x200" then
    .ok (["clf", "train_data", "trainloader", "val_data", "valloader",
      "trainer", "evaluator"])
  else if dataname = "covid" then
    .ok (["clf", "train_data", "trainloader", "val_data", "valloader",
      "trainer", "evaluator"])
  else if dataname = "covid-2x200" then
    .ok (["clf", "train_data", "trainloader", "val_data", "valloader",
      "trainer", "evaluator"])
  else if dataname = "rsna-balanced" ∨ dataname = "rsna-2x200" then
    .ok (["clf", "train_data", "trainloader", "val_data", "valloader",
      "trainer", "evaluator"])
  else
    .error ("NotImplementedError", [])

/-- Claim C8: in both scripts an unrecognized dataname raises
`NotImplementedError` with no task model, dataset, or dataloader built:
the zero-shot script has built only the task-independent MedClip
checkpoint load, the linear-probe script nothing at all. -/
theorem unrecognized_dataname_raises (dataname : String) :
    (dataname ∉ evalRecognizedDatanames →
      evalScriptArtifacts dataname =
        .error ("NotImplementedError", ["medclip_model"])) ∧
    (dataname ∉ probeRecognizedDatanames →
      probeScriptArtifacts dataname = .error ("NotImplementedError", [])) := by
  constructor
  · intro he
    have h6 : dataname ≠ "chexpert-5x200" ∧ dataname ≠ "mimic-5x200" ∧
        dataname ≠ "covid-test" ∧ dataname ≠ "covid-2x200-test" ∧
        dataname ≠ "rsna-balanced-test" ∧ dataname ≠ "rsna-2x200-test" := by
      simpa [evalRecognizedDatanames, not_or] using he
    obtain ⟨h1, h2, h3, h4, h5, h6⟩ := h6
    simp [evalScriptArtifacts, h1, h2, h3, h4, h5, h6]
  · intro hp
    have h6 : dataname ≠ "chexpert-5x200" ∧ dataname ≠ "mimic-5x200" ∧
        dataname ≠ "covid" ∧ dataname ≠ "covid-2x200" ∧
        dataname ≠ "rsna-balanced" ∧ dataname ≠ "rsna-2x200" := by
      simpa [probeRecognizedDatanames, not_or] using hp
    obtain ⟨h1, h2, h3, h4, h5, h6⟩ := h6
    simp [probeScriptArtifacts, h1, h2, h3, h4, h5, h6]

theorem unrecognized_dataname_raises_witness :
    evalScriptArtifacts "imagenet" =
      .error ("NotImplementedError", ["medclip_model"]) ∧
    probeScriptArtifacts "imagenet" = .error ("NotImplementedError", []) :=
  ⟨(unrecognized_dataname_raises "imagenet").1 (by decide),
   (unrecognized_dataname_raises "imagenet").2 (by decide)⟩

/-! ## The zero-shot class-prompt assertions

The task lists live in `medclip.constants` and the prompt generators in
`medclip.prompts`; neither is under `src/`, so both are modelled from
the spec's description of "scoring class-specific text prompts against
image embeddings": a prompt generator returns a dictionary keyed by the
class names it targets.  Only the key lists matter to the assertions.
-/

/-- Python `dict.update` at the level of key lists: existing keys keep
their position, new keys are appended in insertion order. -/
def dictUpdateKeys (old new : List String) : List String :=
  old ++ new.filter (fun k => decide (k ∉ old))

/-- Modelled from the spec: `generate_chexpert_class_prompts` (in
`medclip.prompts`, not under `src/`) builds class-specific prompts for
the CheXpert competition classes — a dictionary with one entry per task
class, in task order. -/
def chexpertPromptKeys (chexpertTasks : List String) : List String :=
  chexpertTasks

/-- Modelled from the spec: `generate_class_prompts(df_sent, classes, n)`
(in `medclip.prompts`, not under `src/`) samples prompts for each
requested class from the sentence database — a dictionary keyed by the
requested class names in order. -/
def classPromptKeys (classes : List String) : List String := classes

/-- Modelled from the spec: `generate_covid_class_prompts` (not under
`src/`) builds class-specific prompts for the COVID-positive class — a
dictionary keyed by that single class name. -/
def covidPromptKeys (covidClass : String) : List String := [covidClass]

/-- Modelled from the spec: `generate_rsna_class_prompts` (not under
`src/`) builds class-specific prompts for the RSNA pneumonia class — a
dictionary keyed by that single class name. -/
def rsnaPromptKeys (rsnaClass : String) : List String := [rsnaClass]

/-- The per-run prompt construction and `assert` of the zero-shot
script, at the level of key lists: `.ok keys` when the branch's
assertion passes, `AssertionError` when the compared entries differ,
and `IndexError` when `[1]` is out of range. -/
def evalRunPromptCheck (chexpertTasks covidTasks rsnaTasks : List String)
    (covidClass rsnaClass : String) (dataname : String) :
    Except String (List String) :=
  if dataname = "chexpert-5x200" ∨ dataname = "mimic-5x200" then
    let keys := chexpertPromptKeys chexpertTasks
    if keys = chexpertTasks then .ok keys else .error "AssertionError"
  else if dataname = "covid-test" ∨ dataname = "covid-2x200-test" then
    let keys := dictUpdateKeys (classPromptKeys ["No Finding"])
      (covidPromptKeys covidClass)
    match keys.get? 1, covidTasks.get? 1 with
    | some a, some b => if a = b then .ok keys else .error "AssertionError"
    | _, _ => .error "IndexError"
  else if dataname = "rsna-balanced-test" ∨ dataname = "rsna-2x200-test" then
    let keys := dictUpdateKeys (classPromptKeys ["No Finding"])
      (rsnaPromptKeys rsnaClass)
    match keys.get? 1, rsnaTasks.get? 1 with
    | some a, some b => if a = b then .ok keys else .error "AssertionError"
    | _, _ => .error "IndexError"
  else .error "NotImplementedError"

/-- Claim C4: for every recognized dataname the class-prompt dictionary
is keyed by the task's class names — equal to the chexpert task list in
the multiclass branches, second key equal to the second task in the
covid and rsna branches — so the script's assertions never fail.  The
hypotheses pin down the spec-modelled constants: the binary task lists
have the generator's target class in position 1, distinct from
`No Finding`. -/
theorem cls_prompt_assertions_hold (chexpertTasks covidTasks rsnaTasks : List String)
    (covidClass rsnaClass : String)
    (hcov : covidTasks.get? 1 = some covidClass)
    (hrsna : rsnaTasks.get? 1 = some rsnaClass)
    (hcovNF : covidClass ≠ "No Finding")
    (hrsnaNF : rsnaClass ≠ "No Finding")
    (dataname : String) (hd : dataname ∈ evalRecognizedDatanames) :
    ∃ keys,
      evalRunPromptCheck chexpertTasks covidTasks rsnaTasks covidClass
        rsnaClass dataname = .ok keys ∧
      ((dataname = "chexpert-5x200" ∨ dataname = "mimic-5x200") →
        keys = chexpertTasks) ∧
      ((dataname = "covid-test" ∨ dataname = "covid-2x200-test") →
        keys.get? 1 = covidTasks.get? 1) ∧
      ((dataname = "rsna-balanced-test" ∨ dataname = "rsna-2x200-test") →
        keys.get? 1 = rsnaTasks.get? 1) := by
  have hcovKeys : dictUpdateKeys (classPromptKeys ["No Finding"])
      (covidPromptKeys covidClass) = ["No Finding", covidClass] := by
    simp [dictUpdateKeys, classPromptKeys, covidPromptKeys, hcovNF]
  have hrsnaKeys : dictUpdateKeys (classPromptKeys ["No Finding"])
      (rsnaPromptKeys rsnaClass) = ["No Finding", rsnaClass] := by
    simp [dictUpdateKeys, classPromptKeys, rsnaPromptKeys, hrsnaNF]
  rw [List.get?_eq_getElem?] at hcov hrsna
  simp only [evalRecognizedDatanames, List.mem_cons, List.not_mem_nil,
    or_false] at hd
  rcases hd with rfl | rfl | rfl | rfl | rfl | rfl
  · exact ⟨chexpertTasks, by simp [evalRunPromptCheck, chexpertPromptKeys],
      fun _ => rfl, by simp, by simp⟩
  · exact ⟨chexpertTasks, by simp [evalRunPromptCheck, chexpertPromptKeys],
      fun _ => rfl, by simp, by simp⟩
  · refine ⟨["No Finding", covidClass], ?_, by simp, fun _ => by
      simp [hcov], by simp⟩
    simp [evalRunPromptCheck, hcovKeys, hcov]
  · refine ⟨["No Finding", covidClass], ?_, by simp, fun _ => by
      simp [hcov], by simp⟩
    simp [evalRunPromptCheck, hcovKeys, hcov]
  · refine ⟨["No Finding", rsnaClass], ?_, by simp, by simp, fun _ => by
      simp [hrsna]⟩
    simp [evalRunPromptCheck, hrsnaKeys, hrsna]
  · refine ⟨["No Finding", rsnaClass], ?_, by simp, by simp, fun _ => by
      simp [hrsna]⟩
    simp [evalRunPromptCheck, hrsnaKeys, hrsna]

theorem cls_prompt_assertions_hold_witness :
    ∃ keys,
      evalRunPromptCheck
        ["Atelectasis", "Cardiomegaly", "Consolidation", "Edema", "Pleural Effusion"]
        ["Normal", "COVID"] ["Normal", "Pneumonia"] "COVID" "Pneumonia"
        "covid-test" = .ok keys ∧
      (("covid-test" = "chexpert-5x200" ∨ "covid-test" = "mimic-5x200") →
        keys = ["Atelectasis", "Cardiomegaly", "Consolidation", "Edema", "Pleural Effusion"]) ∧
      (("covid-test" = "covid-test" ∨ "covid-test" = "covid-2x200-test") →
        keys.get? 1 = (["Normal", "COVID"] : List String).get? 1) ∧
      (("covid-test" = "rsna-balanced-test" ∨ "covid-test" = "rsna-2x200-test") →
        keys.get? 1 = (["Normal", "Pneumonia"] : List String).get? 1) :=
  cls_prompt_assertions_hold
    ["Atelectasis", "Cardiomegaly", "Consolidation", "Edema", "Pleural Effusion"]
    ["Normal", "COVID"] ["Normal", "Pneumonia"] "COVID" "Pneumonia"
    rfl rfl (by decide) (by decide) "covid-test" (by decide)

/-! ## The zero-shot multi-run metric aggregation

The evaluator (`medclip.evaluator.Evaluator.evaluate`, not under
`src/`) is abstracted as a per-run result dictionary; metric values are
rationals.  The script is `for i in range(n_runs): ... for key in
res.keys(): if key not in ['pred', 'labels']:
metrc_list[key].append(res[key])`, followed by `np.mean`/`np.std` per
collected key.  `np.std` uses `ddof=0`, the population standard
deviation; it is represented here by its square (the population
variance), exact over the rationals.
-/

/-- `n_runs = 5` of the zero-shot script. -/
def n_runs : Nat := 5

/-- The keys the aggregation loop skips: `['pred', 'labels']`. -/
def skippedKeys : List String := ["pred", "labels"]

/-- `metrc_list[key].append(value)` on the `defaultdict(list)`:
appending to the existing entry when the key is present, otherwise
creating a new singleton entry at the end (dict insertion order). -/
def appendMetric (m : List (String × List Rat)) (k : String) (v : Rat) :
    List (String × List Rat) :=
  match m with
  | [] => [(k, [v])]
  | (k0, vs) :: rest =>
    if k0 = k then (k0, vs ++ [v]) :: rest
    else (k0, vs) :: appendMetric rest k v

/-- One run's collection loop over `res.keys()`, skipping
`pred`/`labels`. -/
def collectRun (m : List (String × List Rat)) (res : List (String × Rat)) :
    List (String × List Rat) :=
  res.foldl (fun m kv =>
    if kv.1 ∈ skippedKeys then m else appendMetric m kv.1 kv.2) m

/-- The whole evaluation loop over `range(n_runs)`, starting from the
empty `defaultdict(list)`. -/
def collectMetrics (res : Nat → List (String × Rat)) :
    List (String × List Rat) :=
  (List.range n_runs).foldl (fun m i => collectRun m (res i)) []

/-- `np.mean` over exact rationals. -/
def npMean (l : List Rat) : Rat := l.sum / l.length

/-- The square of `np.std` with its default `ddof=0`: the population
variance, dividing by the sample count `n` rather than `n - 1`. -/
def npStdSq (l : List Rat) : Rat :=
  (l.map (fun x => (x - npMean l) ^ 2)).sum / l.length

/-- The final reporting loop: one line per collected key with the mean
and the population standard deviation (its square shown) of the
collected values. -/
def reportMetrics (res : Nat → List (String × Rat)) :
    List (String × Rat × Rat) :=
  (collectMetrics res).map (fun kv => (kv.1, npMean kv.2, npStdSq kv.2))

theorem appendMetric_absent (m : List (String × List Rat)) (k : String)
    (v : Rat) (hm : ∀ kv ∈ m, kv.1 ≠ k) :
    appendMetric m k v = m ++ [(k, [v])] := by
  induction m with
  | nil => rfl
  | cons kv rest ih =>
    obtain ⟨k0, vs⟩ := kv
    have hne : k0 ≠ k := hm (k0, vs) (List.mem_cons_self _ _)
    simp only [appendMetric, if_neg hne, List.cons_append]
    rw [ih (fun kv hkv => hm kv (List.mem_cons_of_mem _ hkv))]

theorem appendMetric_found (A : List (String × List Rat)) (k : String)
    (vs : List Rat) (rest : List (String × List Rat)) (v : Rat)
    (hA : ∀ kv ∈ A, kv.1 ≠ k) :
    appendMetric (A ++ (k, vs) :: rest) k v = A ++ (k, vs ++ [v]) :: rest := by
  induction A with
  | nil => simp [appendMetric]
  | cons kv A ih =>
    obtain ⟨k0, vs0⟩ := kv
    have hne : k0 ≠ k := hA (k0, vs0) (List.mem_cons_self _ _)
    simp only [List.cons_append, appendMetric, if_neg hne, List.append_eq]
    rw [ih (fun kv hkv => hA kv (List.mem_cons_of_mem _ hkv))]

/-- A run over a dictionary with fresh keys `K` appends one singleton
entry per non-skipped key, in `K`'s order. -/
theorem collectRun_insert (K : List String) (val : String → Rat)
    (A : List (String × List Rat)) (hnd : K.Nodup)
    (hdisj : ∀ kv ∈ A, kv.1 ∉ K) :
    collectRun A (K.map (fun k => (k, val k))) =
      A ++ (K.filter (fun k => decide (k ∉ skippedKeys))).map
        (fun k => (k, [val k])) := by
  induction K generalizing A with
  | nil => simp [collectRun]
  | cons k0 K ih =>
    have hk0 : k0 ∉ K := (List.nodup_cons.mp hnd).1
    have hndK : K.Nodup := (List.nodup_cons.mp hnd).2
    by_cases hsk : k0 ∈ skippedKeys
    · simp only [List.map_cons, collectRun, List.foldl_cons, if_pos hsk]
      rw [List.filter_cons_of_neg (by simpa using hsk)]
      exact ih A hndK
        (fun kv hkv => fun hk => hdisj kv hkv (List.mem_cons_of_mem _ hk))
    · simp only [List.map_cons, collectRun, List.foldl_cons, if_neg hsk]
      rw [appendMetric_absent A k0 (val k0)
        (fun kv hkv => by
          intro he
          exact hdisj kv hkv (he ▸ List.mem_cons_self _ _))]
      rw [List.filter_cons_of_pos (by simpa using hsk)]
      have := ih (A ++ [(k0, [val k0])]) hndK
        (fun kv hkv => by
          rcases List.mem_append.mp hkv with h | h
          · exact fun hk => hdisj kv h (List.mem_cons_of_mem _ hk)
          · simp only [List.mem_singleton] at h
            rw [h]
            exact hk0)
      exact this.trans (by simp)

/-- A run over a dictionary whose non-skipped keys are exactly those
already collected (after a disjoint accumulator `A`) appends one value
to each collected entry, in place. -/
theorem collectRun_update (K : List String) (val : String → Rat)
    (g : String → List Rat) (A : List (String × List Rat)) (hnd : K.Nodup)
    (hdisj : ∀ kv ∈ A, kv.1 ∉ K) :
    collectRun
      (A ++ (K.filter (fun k => decide (k ∉ skippedKeys))).map
        (fun k => (k, g k)))
      (K.map (fun k => (k, val k))) =
      A ++ (K.filter (fun k => decide (k ∉ skippedKeys))).map
        (fun k => (k, g k ++ [val k])) := by
  induction K generalizing A with
  | nil => simp [collectRun]
  | cons k0 K ih =>
    have hk0 : k0 ∉ K := (List.nodup_cons.mp hnd).1
    have hndK : K.Nodup := (List.nodup_cons.mp hnd).2
    by_cases hsk : k0 ∈ skippedKeys
    · simp only [List.map_cons, collectRun, List.foldl_cons, if_pos hsk]
      rw [List.filter_cons_of_neg (by simpa using hsk)]
      exact ih A hndK
        (fun kv hkv => fun hk => hdisj kv hkv (List.mem_cons_of_mem _ hk))
    · simp only [List.map_cons, collectRun, List.foldl_cons, if_neg hsk]
      rw [List.filter_cons_of_pos (by simpa using hsk)]
      simp only [List.map_cons]
      rw [appendMetric_found A k0 (g k0) _ (val k0)
        (fun kv hkv => by
          intro he
          exact hdisj kv hkv (he ▸ List.mem_cons_self _ _))]
      have hstep := ih (A ++ [(k0, g k0 ++ [val k0])]) hndK
        (fun kv hkv => by
          rcases List.mem_append.mp hkv with h | h
          · exact fun hk => hdisj kv h (List.mem_cons_of_mem _ hk)
          · simp only [List.mem_singleton] at h
            rw [h]
            exact hk0)
      simp only [List.append_assoc, List.singleton_append] at hstep
      simpa [collectRun] using hstep

/-- Claim C5: the script performs exactly `n_runs = 5` runs; every
evaluator key except `pred` and `labels` collects exactly one value per
run (5 values, in run order), `pred` and `labels` are never collected,
and the report applies `np.mean` and the population (`ddof=0`) standard
deviation to those 5 values.  The evaluator is abstracted by a key list
`K` (the same each run, no duplicate keys) and per-run values `v`. -/
theorem metric_aggregation_five_runs (K : List String)
    (v : Nat → String → Rat) (res : Nat → List (String × Rat))
    (hres : ∀ i < n_runs, res i = K.map (fun k => (k, v i k)))
    (hnd : K.Nodup) :
    collectMetrics res =
      (K.filter (fun k => decide (k ∉ skippedKeys))).map
        (fun k => (k, [v 0 k, v 1 k, v 2 k, v 3 k, v 4 k])) ∧
    (∀ kv ∈ collectMetrics res, kv.2.length = n_runs ∧ kv.1 ∉ skippedKeys) ∧
    reportMetrics res =
      (K.filter (fun k => decide (k ∉ skippedKeys))).map
        (fun k => (k, npMean [v 0 k, v 1 k, v 2 k, v 3 k, v 4 k],
          npStdSq [v 0 k, v 1 k, v 2 k, v 3 k, v 4 k])) := by
  have hfold : collectMetrics res =
      collectRun (collectRun (collectRun (collectRun (collectRun [] (res 0))
        (res 1)) (res 2)) (res 3)) (res 4) := by
    unfold collectMetrics n_runs
    rfl
  have hc1 : collectRun [] (K.map fun k => (k, v 0 k)) =
      (K.filter (fun k => decide (k ∉ skippedKeys))).map
        (fun k => (k, [v 0 k])) := by
    simpa using collectRun_insert K (v 0) [] hnd (by simp)
  have hc2 : collectRun ((K.filter (fun k => decide (k ∉ skippedKeys))).map
        (fun k => (k, [v 0 k]))) (K.map fun k => (k, v 1 k)) =
      (K.filter (fun k => decide (k ∉ skippedKeys))).map
        (fun k => (k, [v 0 k, v 1 k])) := by
    simpa using collectRun_update K (v 1) (fun k => [v 0 k]) [] hnd (by simp)
  have hc3 : collectRun ((K.filter (fun k => decide (k ∉ skippedKeys))).map
        (fun k => (k, [v 0 k, v 1 k]))) (K.map fun k => (k, v 2 k)) =
      (K.filter (fun k => decide (k ∉ skippedKeys))).map
        (fun k => (k, [v 0 k, v 1 k, v 2 k])) := by
    simpa using collectRun_update K (v 2) (fun k => [v 0 k, v 1 k]) [] hnd
      (by simp)
  have hc4 : collectRun ((K.filter (fun k => decide (k ∉ skippedKeys))).map
        (fun k => (k, [v 0 k, v 1 k, v 2 k]))) (K.map fun k => (k, v 3 k)) =
      (K.filter (fun k => decide (k ∉ skippedKeys))).map
        (fun k => (k, [v 0 k, v 1 k, v 2 k, v 3 k])) := by
    simpa using collectRun_update K (v 3) (fun k => [v 0 k, v 1 k, v 2 k]) []
      hnd (by simp)
  have hc5 : collectRun ((K.filter (fun k => decide (k ∉ skippedKeys))).map
        (fun k => (k, [v 0 k, v 1 k, v 2 k, v 3 k]))) (K.map fun k => (k, v 4 k)) =
      (K.filter (fun k => decide (k ∉ skippedKeys))).map
        (fun k => (k, [v 0 k, v 1 k, v 2 k, v 3 k, v 4 k])) := by
    simpa using collectRun_update K (v 4)
      (fun k => [v 0 k, v 1 k, v 2 k, v 3 k]) [] hnd (by simp)
  have hmain : collectMetrics res =
      (K.filter (fun k => decide (k ∉ skippedKeys))).map
        (fun k => (k, [v 0 k, v 1 k, v 2 k, v 3 k, v 4 k])) := by
    rw [hfold, hres 0 (by decide), hres 1 (by decide), hres 2 (by decide),
      hres 3 (by decide), hres 4 (by decide), hc1, hc2, hc3, hc4, hc5]
  refine ⟨hmain, ?_, ?_⟩
  · intro kv hkv
    rw [hmain] at hkv
    obtain ⟨k, hk, rfl⟩ := List.mem_map.mp hkv
    refine ⟨rfl, ?_⟩
    exact of_decide_eq_true (List.mem_filter.mp hk).2
  · unfold reportMetrics
    rw [hmain, List.map_map]
    rfl

theorem metric_aggregation_five_runs_witness :
    collectMetrics
      (fun i => [("acc", (i : Rat)), ("pred", (i : Rat)),
        ("labels", (i : Rat))]) = [("acc", [0, 1, 2, 3, 4])] ∧
    reportMetrics
      (fun i => [("acc", (i : Rat)), ("pred", (i : Rat)),
        ("labels", (i : Rat))]) = [("acc", 2, 2)] :=
  ⟨(metric_aggregation_five_runs ["acc", "pred", "labels"]
      (fun i _ => (i : Rat))
      (fun i => [("acc", (i : Rat)), ("pred", (i : Rat)), ("labels", (i : Rat))])
      (fun _ _ => rfl) (by decide)).1.trans
        (by norm_num [skippedKeys]; rfl),
   (metric_aggregation_five_runs ["acc", "pred", "labels"]
      (fun i _ => (i : Rat))
      (fun i => [("acc", (i : Rat)), ("pred", (i : Rat)), ("labels", (i : Rat))])
      (fun _ _ => rfl) (by decide)).2.2.trans
        (by norm_num [skippedKeys, npMean, npStdSq]; rfl)⟩
